import Mathlib

/-!
Verification of the Smart402 Rust SDK against its natural-language
specification.  The Rust sources under `framework/sdk/rust/src` are shallowly
embedded: `f64` amounts become `ℚ`, `HashMap` becomes an association list,
`Result<T, Error>` becomes `Except Error T`, and functions reading the system
clock take the time as an explicit parameter.
-/

namespace Smart402

/-- JSON value tree, the model of `serde_json::Value` (thresholds and rule
action parameters carry arbitrary JSON). -/
inductive Json where
  | null : Json
  | bool (b : Bool) : Json
  | num (q : ℚ) : Json
  | str (s : String) : Json
  | arr (xs : List Json) : Json
  | obj (fields : List (String × Json)) : Json

/-- Error taxonomy from `src/error.rs` (the `#[from]` wrapper variants around
external library errors are collapsed to their message strings).  Note:
`CompilationError` is constructed by `LLMOEngine::compile` in
`src/llmo/engine.rs` but is absent from the `Error` enum in `src/error.rs`;
the variant is included here as the spec's §7 taxonomy and the compiler's own
use of it require. -/
inductive Error where
  | ValidationError (msg : String) : Error
  | CompilationError (msg : String) : Error
  | NetworkError (msg : String) : Error
  | DeploymentError (msg : String) : Error
  | PaymentError (msg : String) : Error
  | NotFoundError (msg : String) : Error
  | ConfigError (msg : String) : Error
  | SerializationError (msg : String) : Error
  | YamlError (msg : String) : Error
  | HttpError (msg : String) : Error
  | IoError (msg : String) : Error
  | Other (msg : String) : Error
deriving DecidableEq

/-- `ContractSummary` from `src/types.rs`. -/
structure ContractSummary where
  title : String
  plain_english : String
  what_it_does : String
  who_its_for : String
  when_it_executes : String
deriving DecidableEq

/-- `PartyInfo` from `src/types.rs`. -/
structure PartyInfo where
  role : String
  identifier : String
  name : Option String
deriving DecidableEq

/-- `DateInfo` from `src/types.rs`. -/
structure DateInfo where
  effective : String
  duration : String
  renewal : String
deriving DecidableEq

/-- `ContractMetadata` from `src/types.rs` (`contract_type` is serialized
under the key `"type"`). -/
structure ContractMetadata where
  contract_type : String
  category : String
  parties : List PartyInfo
  dates : DateInfo
deriving DecidableEq

/-- `PaymentTerms` from `src/types.rs`; the Rust `amount : f64` is modelled
as an exact rational. -/
structure PaymentTerms where
  structure_ : String
  amount : ℚ
  currency : String
  token : String
  blockchain : String
  frequency : String
deriving DecidableEq

/-- `ConditionDefinition` from `src/types.rs`. -/
structure ConditionDefinition where
  id : String
  description : String
  source : String
  operator : String
  threshold : Option Json

/-- `Conditions` from `src/types.rs`. -/
structure Conditions where
  required : List ConditionDefinition
  optional : Option (List ConditionDefinition)

/-- `OracleDefinition` from `src/types.rs` (`oracle_type` is serialized under
the key `"type"`). -/
structure OracleDefinition where
  id : String
  oracle_type : String
  endpoint : Option String
  refresh_rate : String
  required : Bool
deriving DecidableEq

/-- `RuleConditions` from `src/types.rs`. -/
structure RuleConditions where
  all_of : Option (List String)
  any_of : Option (List String)
deriving DecidableEq

/-- `ActionDefinition` from `src/types.rs`; `params` is a
`HashMap<String, serde_json::Value>` flattened into the enclosing object and
modelled as an association list. -/
structure ActionDefinition where
  action : String
  params : List (String × Json)

/-- `RuleDefinition` from `src/types.rs`. -/
structure RuleDefinition where
  rule_id : String
  name : String
  trigger : String
  conditions : RuleConditions
  actions : List ActionDefinition

/-- `UCLContract` from `src/types.rs`, the canonical contract schema. -/
structure UCLContract where
  contract_id : String
  version : String
  standard : String
  summary : ContractSummary
  metadata : ContractMetadata
  payment : PaymentTerms
  conditions : Conditions
  oracles : List OracleDefinition
  rules : List RuleDefinition

/-- `ValidationResult` from `src/llmo/engine.rs`. -/
structure ValidationResult where
  valid : Bool
  errors : List String
  warnings : List String
deriving DecidableEq

/-- `LLMOEngine::validate` from `src/llmo/engine.rs` lines 21-56: pushes an
error string for each failed required-field check and a warning string for
each recommended-field check, then reports `valid = errors.is_empty()`. -/
def validate (ucl : UCLContract) : Except Error ValidationResult :=
  let errors : List String :=
    (if ucl.contract_id = "" then ["contract_id is required"] else []) ++
    (if ucl.version = "" then ["version is required"] else []) ++
    (if ucl.payment.amount < 0 then ["payment amount cannot be negative"] else [])
  let warnings : List String :=
    (if ucl.summary.title = "" then ["title should be provided"] else []) ++
    (if ucl.summary.plain_english = "" then ["plain_english summary should be provided"] else []) ++
    (if ucl.payment.currency = "" then ["currency should be specified"] else [])
  Except.ok { valid := errors.isEmpty, errors := errors, warnings := warnings }

/-- `AEOScore` from `src/aeo/engine.rs`. -/
structure AEOScore where
  total : ℚ
  semantic_richness : ℚ
  citation_friendliness : ℚ
  findability : ℚ
  authority_signals : ℚ
  citation_presence : ℚ
deriving DecidableEq

/-- Rust `String::len` counts UTF-8 bytes, not characters. -/
def byteLen (s : String) : Nat :=
  s.data.foldl (fun n c => n + c.utf8Size) 0

/-- The weight table built by `AEOEngine::default` in `src/aeo/engine.rs`
lines 23-34 (a `HashMap<String, f64>`, modelled as an association list in
insertion order). -/
def aeo_weights : List (String × ℚ) :=
  [("semantic_richness", 0.25),
   ("citation_friendliness", 0.20),
   ("findability", 0.25),
   ("authority_signals", 0.15),
   ("citation_presence", 0.15)]

/-- Indexing `self.weights[key]`; every key used by `calculate_score` is
present, so the default value is never reached. -/
def weightOf (key : String) : ℚ :=
  (aeo_weights.lookup key).getD 0

/-- `AEOEngine::calculate_semantic_richness` from `src/aeo/engine.rs`. -/
def calculate_semantic_richness (ucl : UCLContract) : ℚ :=
  (if ucl.summary.what_it_does ≠ "" then 0.25 else 0) +
  (if ucl.summary.who_its_for ≠ "" then 0.25 else 0) +
  (if ucl.summary.when_it_executes ≠ "" then 0.25 else 0) +
  (if ucl.metadata.parties.isEmpty then 0 else 0.25)

/-- `AEOEngine::calculate_citation_friendliness` from `src/aeo/engine.rs`. -/
def calculate_citation_friendliness (ucl : UCLContract) : ℚ :=
  (if ucl.contract_id.startsWith "smart402:" then 0.4 else 0) +
  (if byteLen ucl.summary.plain_english > 50 then 0.3 else 0) +
  (if ucl.conditions.required.isEmpty then 0 else 0.3)

/-- `AEOEngine::calculate_findability` from `src/aeo/engine.rs`:
base score 0.5 plus category/type bonuses. -/
def calculate_findability (ucl : UCLContract) : ℚ :=
  0.5 +
  (if ucl.metadata.category ≠ "" then 0.25 else 0) +
  (if ucl.metadata.contract_type ≠ "" then 0.25 else 0)

/-- `AEOEngine::calculate_authority_signals`: fixed baseline. -/
def calculate_authority_signals (_ucl : UCLContract) : ℚ := 0.5

/-- `AEOEngine::calculate_citation_presence`: fixed baseline. -/
def calculate_citation_presence (_ucl : UCLContract) : ℚ := 0.5

/-- `AEOEngine::calculate_score` from `src/aeo/engine.rs` lines 43-64. -/
def calculate_score (ucl : UCLContract) : Except Error AEOScore :=
  let semantic_richness := calculate_semantic_richness ucl
  let citation_friendliness := calculate_citation_friendliness ucl
  let findability := calculate_findability ucl
  let authority_signals := calculate_authority_signals ucl
  let citation_presence := calculate_citation_presence ucl
  let total := semantic_richness * weightOf "semantic_richness"
    + citation_friendliness * weightOf "citation_friendliness"
    + findability * weightOf "findability"
    + authority_signals * weightOf "authority_signals"
    + citation_presence * weightOf "citation_presence"
  Except.ok
    { total := total
      semantic_richness := semantic_richness
      citation_friendliness := citation_friendliness
      findability := findability
      authority_signals := authority_signals
      citation_presence := citation_presence }

/-- Decimal digits of the fractional part `num/den` (`den ≠ 0`), most
significant first, stopping at an exact remainder; `fuel` bounds the digit
count the way a finite `f64` rendering does. -/
def decDigits (den : ℕ) : ℕ → ℕ → List Char
  | _, 0 => []
  | num, fuel + 1 =>
    if num = 0 then []
    else Nat.digitChar ((num * 10) / den) :: decDigits den ((num * 10) % den) fuel

/-- Rust `Display` rendering of the payment amount (`f64` modelled as `ℚ`):
an integer renders without a fractional part (`99.0` prints as `99`), other
values render as `int.frac` decimals (`0.10` prints as `0.1`). -/
def fmtAmount (q : ℚ) : String :=
  let sign := if q < 0 then "-" else ""
  let n := q.num.natAbs
  let d := q.den
  let ip := n / d
  let rem := n % d
  if rem = 0 then sign ++ toString ip
  else sign ++ toString ip ++ "." ++ String.mk (decDigits d rem 17)

/-- Rust `format!("{:x}", n)`: lowercase hexadecimal rendering. -/
def hexStr (n : ℕ) : String :=
  String.mk (Nat.toDigits 16 n)

/-- `X402Headers` from `src/x402/client.rs`. -/
structure X402Headers where
  contract_id : String
  payment_amount : String
  payment_token : String
  settlement_network : String
  conditions_met : String
  signature : String
  nonce : String
deriving DecidableEq

/-- `X402Client` from `src/x402/client.rs`. -/
structure X402Client where
  endpoint : String
deriving DecidableEq

/-- `X402Client::simple_hash`: the placeholder hash is the lowercase hex
rendering of the UTF-8 byte length of the input. -/
def simple_hash (data : String) : String :=
  hexStr (byteLen data)

/-- `X402Client::generate_nonce` from `src/x402/client.rs` lines 92-99: the
wall-clock time is an explicit parameter (milliseconds since the Unix epoch)
and `as_secs()` truncates it to whole seconds. -/
def generate_nonce (now_millis : ℕ) : String :=
  toString (now_millis / 1000)

/-- `X402Client::generate_signature` from `src/x402/client.rs` lines 101-108:
`"sig_"` followed by `simple_hash` of `"{contract_id}:{amount}:{token}:{nonce}"`. -/
def generate_signature (_client : X402Client) (ucl : UCLContract) (nonce : String) :
    Except Error String :=
  let data := ucl.contract_id ++ ":" ++ fmtAmount ucl.payment.amount ++ ":"
    ++ ucl.payment.token ++ ":" ++ nonce
  Except.ok ("sig_" ++ simple_hash data)

/-- `X402Client::generate_headers` from `src/x402/client.rs` lines 57-70. -/
def generate_headers (client : X402Client) (ucl : UCLContract) (conditions_met : Bool)
    (now_millis : ℕ) : Except Error X402Headers :=
  let nonce := generate_nonce now_millis
  (generate_signature client ucl nonce).bind fun signature =>
    Except.ok
      { contract_id := ucl.contract_id
        payment_amount := fmtAmount ucl.payment.amount
        payment_token := ucl.payment.token
        settlement_network := ucl.payment.blockchain
        conditions_met := toString conditions_met
        signature := signature
        nonce := nonce }

/-- `X402Client::verify_response` from `src/x402/client.rs` lines 87-90: the
body ignores the received headers and returns `Ok(true)`. -/
def verify_response (_client : X402Client) (_headers : List (String × String)) :
    Except Error Bool :=
  Except.ok true

/-- `ContractStatus` from `src/types.rs`. -/
inductive ContractStatus where
  | Draft | Deploying | Deployed | Active | Paused | Completed | Failed
deriving DecidableEq

/-- `PaymentConfig` from `src/types.rs`. -/
structure PaymentConfig where
  amount : ℚ
  token : String
  frequency : String
  blockchain : Option String
  day_of_month : Option ℕ
deriving DecidableEq

/-- `ConditionConfig` from `src/types.rs`. -/
structure ConditionConfig where
  id : String
  description : String
  source : String
  operator : String
  threshold : Json

/-- `ContractConfig` from `src/types.rs` (`metadata` is a
`HashMap<String, serde_json::Value>`, modelled as an association list). -/
structure ContractConfig where
  contract_type : String
  parties : List String
  payment : PaymentConfig
  conditions : Option (List ConditionConfig)
  metadata : Option (List (String × Json))

/-- `DeployResult` from `src/types.rs`. -/
structure DeployResult where
  success : Bool
  address : String
  transaction_hash : String
  network : String
  block_number : Option ℕ
  contract_id : String
deriving DecidableEq

/-- `PaymentResult` from `src/types.rs` (`from` and `to` are Lean keywords,
hence the trailing underscores). -/
structure PaymentResult where
  success : Bool
  transaction_hash : String
  amount : ℚ
  token : String
  network : String
  from_ : String
  to_ : String
deriving DecidableEq

/-- `ConditionCheckResult` from `src/types.rs`; the `chrono` timestamp is
modelled as a plain number supplied by the caller. -/
structure ConditionCheckResult where
  all_met : Bool
  conditions : List (String × Bool)
  timestamp : ℕ
deriving DecidableEq

/-- `Contract` from `src/core/contract.rs`: a `UCLContract` plus mutable
deployment state.  The Rust getters `status()`, `address()` and
`transaction_hash()` return exactly these fields, so the projections model
them. -/
structure Contract where
  ucl : UCLContract
  status : ContractStatus
  deployed_address : Option String
  transaction_hash : Option String

/-- The fixed placeholder `UCLContract` built by `Contract::from_config`
(`src/core/contract.rs` lines 18-53) for every input configuration. -/
def placeholder_ucl : UCLContract :=
  { contract_id := "smart402:contract:abc123"
    version := "1.0"
    standard := "UCL-1.0"
    summary :=
      { title := "Contract"
        plain_english := "Contract summary"
        what_it_does := ""
        who_its_for := ""
        when_it_executes := "" }
    metadata :=
      { contract_type := "custom"
        category := "general"
        parties := []
        dates := { effective := "2024-01-01", duration := "12 months", renewal := "auto" } }
    payment :=
      { structure_ := "fixed"
        amount := 0
        currency := "USD"
        token := "USDC"
        blockchain := "polygon"
        frequency := "one-time" }
    conditions := { required := [], optional := none }
    oracles := []
    rules := [] }

/-- `Contract::from_config` from `src/core/contract.rs` lines 16-61: the
configuration parameter is ignored (`_config`) and a fixed placeholder
contract in `Draft` status is returned unconditionally. -/
def from_config (_config : ContractConfig) : Except Error Contract :=
  Except.ok
    { ucl := placeholder_ucl
      status := ContractStatus.Draft
      deployed_address := none
      transaction_hash := none }

/-- `Contract::deploy` from `src/core/contract.rs` lines 64-83: sets status
to `Deploying`, then unconditionally stores the placeholder address and
transaction hash, ends in `Deployed`, and returns a successful result (state
passing models `&mut self`; the transient `Deploying` value is overwritten
before the call returns). -/
def deploy (c : Contract) (network : String) : Contract × Except Error DeployResult :=
  let address := "0x1234567890abcdef"
  let tx_hash := "0xabcdef1234567890"
  let c' := { c with
    status := ContractStatus.Deployed
    deployed_address := some address
    transaction_hash := some tx_hash }
  (c', Except.ok
    { success := true
      address := address
      transaction_hash := tx_hash
      network := network
      block_number := some 12345678
      contract_id := c.ucl.contract_id })

/-- `Contract::execute_payment` from `src/core/contract.rs` lines 86-96: no
status check; always returns a successful `PaymentResult` echoing the
contract's payment terms. -/
def execute_payment (c : Contract) : Except Error PaymentResult :=
  Except.ok
    { success := true
      transaction_hash := "0xpayment123"
      amount := c.ucl.payment.amount
      token := c.ucl.payment.token
      network := c.ucl.payment.blockchain
      from_ := "0xfrom"
      to_ := "0xto" }

/-- `Contract::check_conditions` from `src/core/contract.rs` lines 105-111:
returns `all_met = true` and an empty per-condition map regardless of the
contract's conditions (`chrono::Utc::now()` is the explicit `now` input). -/
def check_conditions (_c : Contract) (now : ℕ) : Except Error ConditionCheckResult :=
  Except.ok { all_met := true, conditions := [], timestamp := now }

/-- String containment: `needle` occurs contiguously inside `hay`. -/
def strContains (hay needle : String) : Prop :=
  ∃ pre post : String, hay = pre ++ needle ++ post

/-- `LLMOEngine::compile_solidity` from `src/llmo/engine.rs` lines 104-135:
the fixed Solidity skeleton with `title`, `plain_english` and the payment
amount substituted (`\x7b`/`\x7d` denote the literal braces of the
template). -/
def compile_solidity (ucl : UCLContract) : Except Error String :=
  Except.ok
    ("// SPDX-License-Identifier: MIT\npragma solidity ^0.8.0;\n\n/**\n * "
      ++ ucl.summary.title
      ++ "\n * "
      ++ ucl.summary.plain_english
      ++ "\n */\ncontract Smart402Contract \x7b\n    address public owner;\n    uint256 public paymentAmount;\n    address public paymentToken;\n\n    constructor(address _token) \x7b\n        owner = msg.sender;\n        paymentAmount = "
      ++ fmtAmount ucl.payment.amount
      ++ " * 10**18;\n        paymentToken = _token;\n    \x7d\n\n    function executePayment() public payable \x7b\n        require(msg.value >= paymentAmount, \"Insufficient payment\");\n        // Payment logic here\n    \x7d\n\x7d\n")

/-- `LLMOEngine::compile_javascript` from `src/llmo/engine.rs` lines 137-169
(`\x27` is the template's literal single quote). -/
def compile_javascript (ucl : UCLContract) : Except Error String :=
  Except.ok
    ("/**\n * "
      ++ ucl.summary.title
      ++ "\n * "
      ++ ucl.summary.plain_english
      ++ "\n */\nclass Smart402Contract \x7b\n  constructor() \x7b\n    this.paymentAmount = "
      ++ fmtAmount ucl.payment.amount
      ++ ";\n    this.paymentToken = \x27"
      ++ ucl.payment.token
      ++ "\x27;\n    this.network = \x27"
      ++ ucl.payment.blockchain
      ++ "\x27;\n  \x7d\n\n  async executePayment() \x7b\n    // Payment execution logic\n    return \x7b\n      success: true,\n      amount: this.paymentAmount,\n      token: this.paymentToken\n    \x7d;\n  \x7d\n\x7d\n\nmodule.exports = Smart402Contract;\n")

/-- `LLMOEngine::compile_rust` from `src/llmo/engine.rs` lines 171-207. -/
def compile_rust (ucl : UCLContract) : Except Error String :=
  Except.ok
    ("/// "
      ++ ucl.summary.title
      ++ "\n/// "
      ++ ucl.summary.plain_english
      ++ "\npub struct Smart402Contract \x7b\n    pub payment_amount: f64,\n    pub payment_token: String,\n    pub network: String,\n\x7d\n\nimpl Smart402Contract \x7b\n    pub fn new() -> Self \x7b\n        Self \x7b\n            payment_amount: "
      ++ fmtAmount ucl.payment.amount
      ++ ",\n            payment_token: \""
      ++ ucl.payment.token
      ++ "\".to_string(),\n            network: \""
      ++ ucl.payment.blockchain
      ++ "\".to_string(),\n        \x7d\n    \x7d\n\n    pub async fn execute_payment(&self) -> Result<PaymentResult> \x7b\n        // Payment execution logic\n        Ok(PaymentResult \x7b\n            success: true,\n            amount: self.payment_amount,\n            token: self.payment_token.clone(),\n        \x7d)\n    \x7d\n\x7d\n")

/-- `LLMOEngine::compile` from `src/llmo/engine.rs` lines 92-102: dispatch on
the target name with a `CompilationError` fallback naming the target. -/
def compile (ucl : UCLContract) (target : String) : Except Error String :=
  if target = "solidity" then compile_solidity ucl
  else if target = "javascript" then compile_javascript ucl
  else if target = "rust" then compile_rust ucl
  else Except.error (Error.CompilationError ("Unsupported target: " ++ target))

/-- Modelled from the spec: the `serde` serialization of `UCLContract` lives
in the external `serde`/`serde_yaml`/`serde_json` crates, not under `src/`;
the persisted YAML/JSON document is modelled by its value tree (§6 calls the
encoding a thin lossless pass-through).  Field names, the `rename = "type"`
attributes, and the omission of `None` optional fields follow the derive
attributes in `src/types.rs`.  This encodes `ContractSummary`. -/
def jsonOfSummary (s : ContractSummary) : Json :=
  .obj [("title", .str s.title), ("plain_english", .str s.plain_english),
    ("what_it_does", .str s.what_it_does), ("who_its_for", .str s.who_its_for),
    ("when_it_executes", .str s.when_it_executes)]

/-- Modelled from the spec: serde encoding of `PartyInfo` (the optional
`name` key is omitted when `None`, per `skip_serializing_if`). -/
def jsonOfParty (p : PartyInfo) : Json :=
  .obj (("role", .str p.role) :: ("identifier", .str p.identifier) ::
    (match p.name with
     | none => []
     | some n => [("name", .str n)]))

/-- Modelled from the spec: serde encoding of `DateInfo`. -/
def jsonOfDates (d : DateInfo) : Json :=
  .obj [("effective", .str d.effective), ("duration", .str d.duration),
    ("renewal", .str d.renewal)]

/-- Modelled from the spec: serde encoding of `ContractMetadata`
(`contract_type` is renamed to `"type"`). -/
def jsonOfMetadata (m : ContractMetadata) : Json :=
  .obj [("type", .str m.contract_type), ("category", .str m.category),
    ("parties", .arr (m.parties.map jsonOfParty)), ("dates", jsonOfDates m.dates)]

/-- Modelled from the spec: serde encoding of `PaymentTerms`. -/
def jsonOfPayment (p : PaymentTerms) : Json :=
  .obj [("structure", .str p.structure_), ("amount", .num p.amount),
    ("currency", .str p.currency), ("token", .str p.token),
    ("blockchain", .str p.blockchain), ("frequency", .str p.frequency)]

/-- Modelled from the spec: serde encoding of `ConditionDefinition`
(optional `threshold` omitted when `None`; a present threshold embeds its
JSON value unchanged). -/
def jsonOfCondition (cd : ConditionDefinition) : Json :=
  .obj (("id", .str cd.id) :: ("description", .str cd.description) ::
    ("source", .str cd.source) :: ("operator", .str cd.operator) ::
    (match cd.threshold with
     | none => []
     | some t => [("threshold", t)]))

/-- Modelled from the spec: serde encoding of `Conditions` (optional list
omitted when `None`). -/
def jsonOfConditions (cs : Conditions) : Json :=
  .obj (("required", .arr (cs.required.map jsonOfCondition)) ::
    (match cs.optional with
     | none => []
     | some l => [("optional", .arr (l.map jsonOfCondition))]))

/-- Modelled from the spec: serde encoding of `OracleDefinition`
(`oracle_type` renamed to `"type"`, optional `endpoint` omitted when
`None`). -/
def jsonOfOracle (o : OracleDefinition) : Json :=
  .obj (("id", .str o.id) :: ("type", .str o.oracle_type) ::
    ((match o.endpoint with
      | none => []
      | some e => [("endpoint", .str e)]) ++
     [("refresh_rate", .str o.refresh_rate), ("required", .bool o.required)]))

/-- Modelled from the spec: serde encoding of `RuleConditions` (both keys
optional). -/
def jsonOfRuleConditions (rc : RuleConditions) : Json :=
  .obj ((match rc.all_of with
         | none => []
         | some l => [("all_of", .arr (l.map Json.str))]) ++
        (match rc.any_of with
         | none => []
         | some l => [("any_of", .arr (l.map Json.str))]))

/-- Modelled from the spec: serde encoding of `ActionDefinition` — the
`#[serde(flatten)]` on `params` splices the parameter map into the same
object, after the `action` key. -/
def jsonOfAction (a : ActionDefinition) : Json :=
  .obj (("action", .str a.action) :: a.params)

/-- Modelled from the spec: serde encoding of `RuleDefinition`. -/
def jsonOfRule (r : RuleDefinition) : Json :=
  .obj [("rule_id", .str r.rule_id), ("name", .str r.name),
    ("trigger", .str r.trigger), ("conditions", jsonOfRuleConditions r.conditions),
    ("actions", .arr (r.actions.map jsonOfAction))]

/-- Modelled from the spec: serde encoding of the whole `UCLContract`, §3
field names in declaration order. -/
def jsonOfContract (c : UCLContract) : Json :=
  .obj [("contract_id", .str c.contract_id), ("version", .str c.version),
    ("standard", .str c.standard), ("summary", jsonOfSummary c.summary),
    ("metadata", jsonOfMetadata c.metadata), ("payment", jsonOfPayment c.payment),
    ("conditions", jsonOfConditions c.conditions),
    ("oracles", .arr (c.oracles.map jsonOfOracle)),
    ("rules", .arr (c.rules.map jsonOfRule))]

/-- Element-wise decoding of a JSON array (serde sequence decoding),
failing if any element fails. -/
def decodeList {α : Type} (dec : Json → Option α) : List Json → Option (List α)
  | [] => some []
  | j :: t => do
      let a ← dec j
      let r ← decodeList dec t
      some (a :: r)

/-- Modelled from the spec: serde decoding of a JSON string. -/
def strOfJson : Json → Option String
  | .str s => some s
  | _ => none

/-- Modelled from the spec: serde decoding of `ContractSummary`. -/
def summaryOfJson : Json → Option ContractSummary
  | .obj [("title", .str t), ("plain_english", .str pe), ("what_it_does", .str wd),
      ("who_its_for", .str wf), ("when_it_executes", .str we)] =>
    some ⟨t, pe, wd, wf, we⟩
  | _ => none

/-- Modelled from the spec: serde decoding of `PartyInfo` (absent `name`
key decodes to `None`). -/
def partyOfJson : Json → Option PartyInfo
  | .obj [("role", .str r), ("identifier", .str i)] => some ⟨r, i, none⟩
  | .obj [("role", .str r), ("identifier", .str i), ("name", .str n)] =>
    some ⟨r, i, some n⟩
  | _ => none

/-- Modelled from the spec: serde decoding of `DateInfo`. -/
def datesOfJson : Json → Option DateInfo
  | .obj [("effective", .str e), ("duration", .str d), ("renewal", .str r)] =>
    some ⟨e, d, r⟩
  | _ => none

/-- Modelled from the spec: serde decoding of `ContractMetadata`. -/
def metadataOfJson : Json → Option ContractMetadata
  | .obj [("type", .str t), ("category", .str c), ("parties", .arr ps), ("dates", jd)] => do
      let pl ← decodeList partyOfJson ps
      let d ← datesOfJson jd
      some ⟨t, c, pl, d⟩
  | _ => none

/-- Modelled from the spec: serde decoding of `PaymentTerms`. -/
def paymentOfJson : Json → Option PaymentTerms
  | .obj [("structure", .str st), ("amount", .num a), ("currency", .str cu),
      ("token", .str tk), ("blockchain", .str bc), ("frequency", .str fr)] =>
    some ⟨st, a, cu, tk, bc, fr⟩
  | _ => none

/-- Modelled from the spec: serde decoding of `ConditionDefinition` (a
present `threshold` keeps its JSON value unchanged). -/
def conditionOfJson : Json → Option ConditionDefinition
  | .obj [("id", .str i), ("description", .str d), ("source", .str s),
      ("operator", .str op)] => some ⟨i, d, s, op, none⟩
  | .obj [("id", .str i), ("description", .str d), ("source", .str s),
      ("operator", .str op), ("threshold", t)] => some ⟨i, d, s, op, some t⟩
  | _ => none

/-- Modelled from the spec: serde decoding of `Conditions`. -/
def conditionsOfJson : Json → Option Conditions
  | .obj [("required", .arr req)] => do
      let r ← decodeList conditionOfJson req
      some ⟨r, none⟩
  | .obj [("required", .arr req), ("optional", .arr opt)] => do
      let r ← decodeList conditionOfJson req
      let o ← decodeList conditionOfJson opt
      some ⟨r, some o⟩
  | _ => none

/-- Modelled from the spec: serde decoding of `OracleDefinition`. -/
def oracleOfJson : Json → Option OracleDefinition
  | .obj [("id", .str i), ("type", .str t), ("refresh_rate", .str rr),
      ("required", .bool rq)] => some ⟨i, t, none, rr, rq⟩
  | .obj [("id", .str i), ("type", .str t), ("endpoint", .str e),
      ("refresh_rate", .str rr), ("required", .bool rq)] => some ⟨i, t, some e, rr, rq⟩
  | _ => none

/-- Modelled from the spec: serde decoding of `RuleConditions`. -/
def ruleConditionsOfJson : Json → Option RuleConditions
  | .obj [] => some ⟨none, none⟩
  | .obj [("all_of", .arr a)] => do
      let l ← decodeList strOfJson a
      some ⟨some l, none⟩
  | .obj [("any_of", .arr b)] => do
      let l ← decodeList strOfJson b
      some ⟨none, some l⟩
  | .obj [("all_of", .arr a), ("any_of", .arr b)] => do
      let la ← decodeList strOfJson a
      let lb ← decodeList strOfJson b
      some ⟨some la, some lb⟩
  | _ => none

/-- Modelled from the spec: serde decoding of `ActionDefinition` — the
first key is the `action` field, the remaining keys are the flattened
parameter map. -/
def actionOfJson : Json → Option ActionDefinition
  | .obj (("action", .str a) :: params) => some ⟨a, params⟩
  | _ => none

/-- Modelled from the spec: serde decoding of `RuleDefinition`. -/
def ruleOfJson : Json → Option RuleDefinition
  | .obj [("rule_id", .str ri), ("name", .str n), ("trigger", .str tr),
      ("conditions", jc), ("actions", .arr acts)] => do
      let rc ← ruleConditionsOfJson jc
      let al ← decodeList actionOfJson acts
      some ⟨ri, n, tr, rc, al⟩
  | _ => none

/-- Modelled from the spec: serde decoding of the whole `UCLContract`. -/
def contractOfJson : Json → Option UCLContract
  | .obj [("contract_id", .str cid), ("version", .str v), ("standard", .str st),
      ("summary", js), ("metadata", jm), ("payment", jp), ("conditions", jc),
      ("oracles", .arr jos), ("rules", .arr jrs)] => do
      let s ← summaryOfJson js
      let m ← metadataOfJson jm
      let p ← paymentOfJson jp
      let cs ← conditionsOfJson jc
      let os ← decodeList oracleOfJson jos
      let rs ← decodeList ruleOfJson jrs
      some ⟨cid, v, st, s, m, p, cs, os, rs⟩
  | _ => none

/-- `export_yaml` from `src/utils/mod.rs`: serialize to the YAML document
(modelled by its value tree; the external `serde_yaml::to_string` rendering
is the spec's thin lossless pass-through). -/
def export_yaml (ucl : UCLContract) : Except Error Json :=
  Except.ok (jsonOfContract ucl)

/-- `export_json` from `src/utils/mod.rs`: serialize to the JSON document
(modelled by its value tree). -/
def export_json (ucl : UCLContract) : Except Error Json :=
  Except.ok (jsonOfContract ucl)

/-- `save_contract` from `src/utils/mod.rs` lines 18-27: format dispatch;
the `fs::write` call is modelled by returning the written document. -/
def save_contract (ucl : UCLContract) (format : String) : Except Error Json :=
  if format = "yaml" ∨ format = "yml" then export_yaml ucl
  else if format = "json" then export_json ucl
  else Except.error (Error.ValidationError ("Unsupported format: " ++ format))

/-- `load_contract` from `src/utils/mod.rs` lines 30-43: parse the stored
document (YAML attempted first, then JSON — both parses are the same
value-tree decoder here), with a `ValidationError` when parsing fails. -/
def load_contract (doc : Json) : Except Error UCLContract :=
  match contractOfJson doc with
  | some ucl => Except.ok ucl
  | none => Except.error (Error.ValidationError "Could not parse contract file")

/-- Sample contract used for concrete evaluations (placeholder contract with
a distinctive id and a fractional payment amount). -/
def sample_ucl : UCLContract :=
  { placeholder_ucl with
    contract_id := "smart402:saas:cafe42"
    payment := { placeholder_ucl.payment with amount := 199/2 } }

/-- A freshly created contract, still in `Draft` status. -/
def draft_contract : Contract :=
  { ucl := placeholder_ucl
    status := ContractStatus.Draft
    deployed_address := none
    transaction_hash := none }

/-- A contract carrying one required condition, for exercising
`check_conditions`. -/
def monitored_contract : Contract :=
  { ucl :=
      { placeholder_ucl with
        conditions :=
          { required :=
              [{ id := "uptime_check"
                 description := "Service uptime > 99%"
                 source := "api"
                 operator := "gte"
                 threshold := none }]
            optional := none } }
    status := ContractStatus.Draft
    deployed_address := none
    transaction_hash := none }

end Smart402

namespace Smart402

/-- C1: `validate(c)` succeeds with a result whose `valid` flag is true iff
`contract_id` and `version` are non-empty and `payment.amount ≥ 0`; each
violated clause contributes its error entry, and `valid = errors.is_empty()`. -/
theorem validate_valid_iff (ucl : UCLContract) :
    ∃ r : ValidationResult, validate ucl = Except.ok r ∧
      (r.valid = true ↔
        (ucl.contract_id ≠ "" ∧ ucl.version ≠ "" ∧ 0 ≤ ucl.payment.amount)) ∧
      (("contract_id is required" ∈ r.errors) ↔ ucl.contract_id = "") ∧
      (("version is required" ∈ r.errors) ↔ ucl.version = "") ∧
      (("payment amount cannot be negative" ∈ r.errors) ↔ ucl.payment.amount < 0) ∧
      r.valid = r.errors.isEmpty := by
  refine ⟨_, rfl, ?_, ?_, ?_, ?_, ?_⟩ <;>
    simp only [validate] <;>
    split_ifs <;>
    simp_all [not_lt]

lemma weightOf_semantic_richness : weightOf "semantic_richness" = 0.25 := rfl

lemma weightOf_citation_friendliness : weightOf "citation_friendliness" = 0.20 := rfl

lemma weightOf_findability : weightOf "findability" = 0.25 := rfl

lemma weightOf_authority_signals : weightOf "authority_signals" = 0.15 := rfl

lemma weightOf_citation_presence : weightOf "citation_presence" = 0.15 := rfl

lemma calculate_semantic_richness_bounds (ucl : UCLContract) :
    0 ≤ calculate_semantic_richness ucl ∧ calculate_semantic_richness ucl ≤ 1 := by
  unfold calculate_semantic_richness
  split_ifs <;> norm_num

lemma calculate_citation_friendliness_bounds (ucl : UCLContract) :
    0 ≤ calculate_citation_friendliness ucl ∧ calculate_citation_friendliness ucl ≤ 1 := by
  unfold calculate_citation_friendliness
  split_ifs <;> norm_num

lemma calculate_findability_bounds (ucl : UCLContract) :
    0 ≤ calculate_findability ucl ∧ calculate_findability ucl ≤ 1 := by
  unfold calculate_findability
  split_ifs <;> norm_num

/-- C2: `calculate_score` succeeds with `total` equal to the weighted sum of
the five sub-scores with weights 0.25/0.20/0.25/0.15/0.15, the weight table
sums to exactly 1, every sub-score lies in `[0, 1]`, and `0 ≤ total ≤ 1`. -/
theorem calculate_score_weighted_total (ucl : UCLContract) :
    ∃ s : AEOScore, calculate_score ucl = Except.ok s ∧
      s.total = s.semantic_richness * 0.25 + s.citation_friendliness * 0.20
        + s.findability * 0.25 + s.authority_signals * 0.15
        + s.citation_presence * 0.15 ∧
      weightOf "semantic_richness" + weightOf "citation_friendliness"
        + weightOf "findability" + weightOf "authority_signals"
        + weightOf "citation_presence" = 1 ∧
      (0 ≤ s.semantic_richness ∧ s.semantic_richness ≤ 1) ∧
      (0 ≤ s.citation_friendliness ∧ s.citation_friendliness ≤ 1) ∧
      (0 ≤ s.findability ∧ s.findability ≤ 1) ∧
      (0 ≤ s.authority_signals ∧ s.authority_signals ≤ 1) ∧
      (0 ≤ s.citation_presence ∧ s.citation_presence ≤ 1) ∧
      0 ≤ s.total ∧ s.total ≤ 1 := by
  obtain ⟨hs0, hs1⟩ := calculate_semantic_richness_bounds ucl
  obtain ⟨hc0, hc1⟩ := calculate_citation_friendliness_bounds ucl
  obtain ⟨hf0, hf1⟩ := calculate_findability_bounds ucl
  refine ⟨_, rfl, ?_, by norm_num [weightOf_semantic_richness,
    weightOf_citation_friendliness, weightOf_findability,
    weightOf_authority_signals, weightOf_citation_presence], ?_, ?_, ?_, ?_, ?_, ?_, ?_⟩
  · show calculate_semantic_richness ucl * weightOf "semantic_richness"
        + calculate_citation_friendliness ucl * weightOf "citation_friendliness"
        + calculate_findability ucl * weightOf "findability"
        + calculate_authority_signals ucl * weightOf "authority_signals"
        + calculate_citation_presence ucl * weightOf "citation_presence"
      = calculate_semantic_richness ucl * 0.25
        + calculate_citation_friendliness ucl * 0.20
        + calculate_findability ucl * 0.25
        + calculate_authority_signals ucl * 0.15
        + calculate_citation_presence ucl * 0.15
    rw [weightOf_semantic_richness, weightOf_citation_friendliness,
      weightOf_findability, weightOf_authority_signals, weightOf_citation_presence]
  · exact ⟨hs0, hs1⟩
  · exact ⟨hc0, hc1⟩
  · exact ⟨hf0, hf1⟩
  · exact ⟨by norm_num [calculate_authority_signals], by norm_num [calculate_authority_signals]⟩
  · exact ⟨by norm_num [calculate_citation_presence], by norm_num [calculate_citation_presence]⟩
  · show 0 ≤ calculate_semantic_richness ucl * weightOf "semantic_richness"
        + calculate_citation_friendliness ucl * weightOf "citation_friendliness"
        + calculate_findability ucl * weightOf "findability"
        + calculate_authority_signals ucl * weightOf "authority_signals"
        + calculate_citation_presence ucl * weightOf "citation_presence"
    rw [weightOf_semantic_richness, weightOf_citation_friendliness,
      weightOf_findability, weightOf_authority_signals, weightOf_citation_presence]
    have := mul_nonneg hs0 (by norm_num : (0:ℚ) ≤ 0.25)
    have := mul_nonneg hc0 (by norm_num : (0:ℚ) ≤ 0.20)
    have := mul_nonneg hf0 (by norm_num : (0:ℚ) ≤ 0.25)
    norm_num [calculate_authority_signals, calculate_citation_presence]
    linarith
  · show calculate_semantic_richness ucl * weightOf "semantic_richness"
        + calculate_citation_friendliness ucl * weightOf "citation_friendliness"
        + calculate_findability ucl * weightOf "findability"
        + calculate_authority_signals ucl * weightOf "authority_signals"
        + calculate_citation_presence ucl * weightOf "citation_presence" ≤ 1
    rw [weightOf_semantic_richness, weightOf_citation_friendliness,
      weightOf_findability, weightOf_authority_signals, weightOf_citation_presence]
    have h1 : calculate_semantic_richness ucl * (0.25:ℚ) ≤ 0.25 := by nlinarith
    have h2 : calculate_citation_friendliness ucl * (0.20:ℚ) ≤ 0.20 := by nlinarith
    have h3 : calculate_findability ucl * (0.25:ℚ) ≤ 0.25 := by nlinarith
    norm_num [calculate_authority_signals, calculate_citation_presence]
    linarith

lemma str_append_assoc (a b c : String) : (a ++ b) ++ c = a ++ (b ++ c) :=
  String.ext (by simp [String.data_append, List.append_assoc])

lemma str_append_empty (a : String) : a ++ "" = a :=
  String.ext (by simp [String.data_append])

lemma strContains_mid (a b c : String) : strContains (a ++ b ++ c) b :=
  ⟨a, c, rfl⟩

lemma strContains_end (a b : String) : strContains (a ++ b) b :=
  ⟨a, "", by rw [str_append_empty]⟩

lemma strContains_append_right {hay needle : String} (h : strContains hay needle)
    (s : String) : strContains (hay ++ s) needle := by
  obtain ⟨pre, post, rfl⟩ := h
  exact ⟨pre, post ++ s, by rw [str_append_assoc]⟩

/-- C3: `verify_response` ignores the received headers entirely and returns
`Ok(true)` for every input — including maps with a missing or mismatching
signature — instead of recomputing and comparing the signature. -/
theorem verify_response_ignores_headers (client : X402Client)
    (headers : List (String × String)) :
    verify_response client headers = Except.ok true := rfl

/-- C4: two `generate_headers(c, true)` calls made at distinct instants
inside the same wall-clock second (milliseconds 1700000000123 and
1700000000456) return identical `nonce` and identical `signature` — the
nonce is the whole-second timestamp — while the contract fields agree, so
the claimed distinctness fails. -/
theorem generate_headers_same_second_collision :
    ∃ h1 h2 : X402Headers,
      generate_headers ⟨"https://x402.smart402.io"⟩ sample_ucl true 1700000000123
        = Except.ok h1 ∧
      generate_headers ⟨"https://x402.smart402.io"⟩ sample_ucl true 1700000000456
        = Except.ok h2 ∧
      (1700000000123 : ℕ) ≠ 1700000000456 ∧
      (1700000000123 : ℕ) / 1000 = 1700000000456 / 1000 ∧
      h1.nonce = h2.nonce ∧ h1.signature = h2.signature ∧
      h1.contract_id = h2.contract_id ∧ h1.payment_amount = h2.payment_amount ∧
      h1.payment_token = h2.payment_token ∧
      h1.settlement_network = h2.settlement_network := by
  refine ⟨_, _, rfl, rfl, by norm_num, by norm_num, rfl, rfl, rfl, rfl, rfl, rfl⟩

/-- C5: a configuration with an empty `parties` list, an empty
`payment.token`, and no `blockchain` is accepted by `from_config`, which
returns the fixed placeholder contract instead of a `ConfigError`. -/
theorem from_config_accepts_invalid_config :
    from_config
      { contract_type := "test"
        parties := []
        payment :=
          { amount := 10, token := "", frequency := "monthly"
            blockchain := none, day_of_month := none }
        conditions := none
        metadata := none }
      = Except.ok
          { ucl := placeholder_ucl
            status := ContractStatus.Draft
            deployed_address := none
            transaction_hash := none } := rfl

/-- C6: `compile` fails with a `CompilationError` naming the requested
target for every unsupported target string, and for each supported target
returns source text containing the rendered decimal payment amount. -/
theorem compile_dispatch (ucl : UCLContract) (target : String) :
    ((target ≠ "solidity" ∧ target ≠ "javascript" ∧ target ≠ "rust") →
      ∃ msg, compile ucl target = Except.error (Error.CompilationError msg) ∧
        strContains msg target) ∧
    ((target = "solidity" ∨ target = "javascript" ∨ target = "rust") →
      ∃ out, compile ucl target = Except.ok out ∧
        strContains out (fmtAmount ucl.payment.amount)) := by
  constructor
  · rintro ⟨h1, h2, h3⟩
    refine ⟨"Unsupported target: " ++ target, ?_, "Unsupported target: ", "",
      by rw [str_append_empty]⟩
    simp [compile, h1, h2, h3]
  · rintro (h | h | h) <;> subst h
    · exact ⟨_, rfl, strContains_append_right (strContains_end _ _) _⟩
    · refine ⟨_, rfl, ?_⟩
      exact strContains_append_right (strContains_append_right
        (strContains_append_right (strContains_append_right
          (strContains_append_right (strContains_end _ _) _) _) _) _) _
    · refine ⟨_, rfl, ?_⟩
      exact strContains_append_right (strContains_append_right
        (strContains_append_right (strContains_append_right
          (strContains_append_right (strContains_end _ _) _) _) _) _) _

/-- Witness for C6 at a concrete contract: compiling to the unsupported
target `"python"` yields a `CompilationError` naming it, and compiling to
`"solidity"` yields source containing the amount. -/
theorem compile_dispatch_witness :
    (∃ msg, compile sample_ucl "python"
        = Except.error (Error.CompilationError msg) ∧ strContains msg "python") ∧
    (∃ out, compile sample_ucl "solidity" = Except.ok out ∧
        strContains out (fmtAmount sample_ucl.payment.amount)) :=
  ⟨(compile_dispatch sample_ucl "python").1 (by decide),
   (compile_dispatch sample_ucl "solidity").2 (Or.inl rfl)⟩

/-- C7 counterexample: a `Draft` contract — neither `Deployed` nor `Active`
— is not rejected by `execute_payment`; the call returns `Ok`, refuting the
claim at this input. -/
theorem execute_payment_draft_not_rejected :
    ¬ ((draft_contract.status ≠ ContractStatus.Deployed ∧
        draft_contract.status ≠ ContractStatus.Active) →
      ∃ e, execute_payment draft_contract = Except.error e) := by
  intro h
  obtain ⟨e, he⟩ := h ⟨by decide, by decide⟩
  simp [execute_payment] at he

/-- C7 amended: `execute_payment` performs no status check at all — from
every status it returns a successful `PaymentResult` echoing the contract's
payment amount, token, and blockchain. -/
theorem execute_payment_ignores_status (c : Contract) :
    execute_payment c = Except.ok
      { success := true
        transaction_hash := "0xpayment123"
        amount := c.ucl.payment.amount
        token := c.ucl.payment.token
        network := c.ucl.payment.blockchain
        from_ := "0xfrom"
        to_ := "0xto" } := rfl

/-- C8 counterexample: for a contract with one required condition the result
of `check_conditions` does not cover it — the per-id map is empty — refuting
the claim at this input. -/
theorem check_conditions_misses_required :
    ¬ (∀ now : ℕ, ∃ r, check_conditions monitored_contract now = Except.ok r ∧
        ∀ cd ∈ monitored_contract.ucl.conditions.required,
          (r.conditions.lookup cd.id).isSome) := by
  intro h
  obtain ⟨r, hr, hcov⟩ := h 0
  simp only [check_conditions, Except.ok.injEq] at hr
  subst hr
  have := hcov
    { id := "uptime_check", description := "Service uptime > 99%"
      source := "api", operator := "gte", threshold := none }
    (by simp [monitored_contract, placeholder_ucl])
  simp [List.lookup] at this

/-- C8 amended: `check_conditions` is a stub — for every contract it returns
`all_met = true` and an empty per-condition map, regardless of the required
or optional conditions. -/
theorem check_conditions_stub (c : Contract) (now : ℕ) :
    check_conditions c now
      = Except.ok { all_met := true, conditions := [], timestamp := now } := rfl

/-- C10: from any status, `deploy` returns `Ok` with `success = true`,
leaves the contract `Deployed` (never `Failed`), and afterwards the stored
address and transaction hash are both `Some`. -/
theorem deploy_always_succeeds (c : Contract) (network : String) :
    ∃ c' res, deploy c network = (c', Except.ok res) ∧
      res.success = true ∧
      c'.status = ContractStatus.Deployed ∧
      c'.status ≠ ContractStatus.Failed ∧
      c'.deployed_address.isSome ∧
      c'.transaction_hash.isSome := by
  refine ⟨_, _, rfl, rfl, rfl, fun hcontra => ContractStatus.noConfusion hcontra, rfl, rfl⟩

lemma decodeList_map {α : Type} {enc : α → Json} {dec : Json → Option α}
    (h : ∀ x, dec (enc x) = some x) :
    ∀ l : List α, decodeList dec (l.map enc) = some l := by
  intro l
  induction l with
  | nil => rfl
  | cons a t ih => simp [List.map, decodeList, h, ih]

lemma str_roundtrip (s : String) : strOfJson (Json.str s) = some s := rfl

lemma summary_roundtrip (s : ContractSummary) :
    summaryOfJson (jsonOfSummary s) = some s := rfl

lemma party_roundtrip (p : PartyInfo) : partyOfJson (jsonOfParty p) = some p := by
  cases p with
  | mk r i name => cases name <;> rfl

lemma dates_roundtrip (d : DateInfo) : datesOfJson (jsonOfDates d) = some d := rfl

lemma metadata_roundtrip (m : ContractMetadata) :
    metadataOfJson (jsonOfMetadata m) = some m := by
  cases m with
  | mk t c ps d =>
    simp [jsonOfMetadata, metadataOfJson, decodeList_map party_roundtrip,
      dates_roundtrip]

lemma payment_roundtrip (p : PaymentTerms) :
    paymentOfJson (jsonOfPayment p) = some p := rfl

lemma condition_roundtrip (cd : ConditionDefinition) :
    conditionOfJson (jsonOfCondition cd) = some cd := by
  cases cd with
  | mk i d s op th => cases th <;> rfl

lemma conditions_roundtrip (cs : Conditions) :
    conditionsOfJson (jsonOfConditions cs) = some cs := by
  cases cs with
  | mk req opt =>
    cases opt <;>
      simp [jsonOfConditions, conditionsOfJson, decodeList_map condition_roundtrip]

lemma oracle_roundtrip (o : OracleDefinition) :
    oracleOfJson (jsonOfOracle o) = some o := by
  cases o with
  | mk i t e rr rq => cases e <;> rfl

lemma ruleConditions_roundtrip (rc : RuleConditions) :
    ruleConditionsOfJson (jsonOfRuleConditions rc) = some rc := by
  cases rc with
  | mk ao an =>
    cases ao <;> cases an <;>
      simp [jsonOfRuleConditions, ruleConditionsOfJson, decodeList_map str_roundtrip]

lemma action_roundtrip (a : ActionDefinition) :
    actionOfJson (jsonOfAction a) = some a := by
  cases a with
  | mk act params => rfl

lemma rule_roundtrip (r : RuleDefinition) : ruleOfJson (jsonOfRule r) = some r := by
  cases r with
  | mk ri n tr rc acts =>
    simp [jsonOfRule, ruleOfJson, ruleConditions_roundtrip,
      decodeList_map action_roundtrip]

lemma contract_roundtrip (c : UCLContract) :
    contractOfJson (jsonOfContract c) = some c := by
  cases c with
  | mk cid v st s m p cs os rs =>
    simp [jsonOfContract, contractOfJson, summary_roundtrip, metadata_roundtrip,
      payment_roundtrip, conditions_roundtrip, decodeList_map oracle_roundtrip,
      decodeList_map rule_roundtrip]

/-- C9: saving a contract as YAML and loading the result back yields the
original contract, equal in every field. -/
theorem save_load_roundtrip (ucl : UCLContract) :
    (save_contract ucl "yaml").bind load_contract = Except.ok ucl := by
  simp [save_contract, export_yaml, load_contract, contract_roundtrip, Except.bind]

end Smart402
